import Mathlib

/-!
Verification of the NeuroBalance client against its specification.

The development shallow-embeds the three relevant source modules:
* the gaze-tracking hook (`useWebGazer.ts`): EMA smoothing with a deadzone;
* the game canvas (`Game.tsx`): per-frame simulation step, calibration fit,
  round reset, keyboard handling, trial emission;
* the session dashboard page (`page.tsx`): trial buffering/submission and
  score computation with POST→GET fallback.

JavaScript numbers are modelled as rationals (ℚ); all arithmetic in the
modelled code paths is exact on the inputs considered.  JavaScript
truthiness of a nullable number (`!x` is true exactly when `x` is `null`,
`0`, or `NaN`) is modelled on `Option ℚ` by `truthyNum`.  Invalid gaze
samples (absent, or with non-finite coordinates) are modelled as `none`.
-/

namespace NeuroBalance

/-- `Math.round`: round half away from zero is JS semantics for positive
halves; `Math.round` rounds half toward +∞, i.e. `⌊q + 1/2⌋`. -/
def jsRound (q : ℚ) : ℤ := ⌊q + 1 / 2⌋

/-- `Math.sign` restricted to finite numbers. -/
def jsSign (q : ℚ) : ℚ := if 0 < q then 1 else if q < 0 then -1 else 0

/-- JS truthiness of a `number | null` value: `null` and `0` are falsy. -/
def truthyNum : Option ℚ → Bool
  | none => false
  | some q => decide (q ≠ 0)

/-- `Math.hypot dx dy ≥ d`, expressed without square roots:
`√(dx² + dy²) ≥ d` iff `d ≤ 0` or `d² ≤ dx² + dy²`. -/
def hypotGe (dx dy d : ℚ) : Bool :=
  decide (d ≤ 0) || decide (d * d ≤ dx * dx + dy * dy)

/-! ## Gaze tracking hook (`useWebGazer.ts`) -/

/-- A gaze point in viewport coordinates. -/
structure GazePoint where
  x : ℚ
  y : ℚ
deriving DecidableEq, Repr

/-- The mutable state owned by the gaze hook: latest raw sample, latest
smoothed sample, last-update timestamp, and the lost flag. -/
structure GazeState where
  raw : Option GazePoint
  smoothed : Option GazePoint
  lastTs : ℚ
  lost : Bool
deriving DecidableEq, Repr

/-- The hook's gaze listener `onGaze` (useWebGazer.ts lines 46–70).
An invalid frame (absent sample or non-finite coordinates) is modelled as
`none`: it clears the raw reference and leaves everything else unchanged.
A valid sample seeds the smoothed point if none exists; otherwise it moves
the smoothed point by `alpha` times the delta when the delta's Euclidean
magnitude reaches `deadzone`, and leaves it unchanged below the deadzone.
Every valid sample updates the timestamp and clears the lost flag. -/
def onGaze (alpha deadzone : ℚ) (p : Option GazePoint) (now : ℚ)
    (st : GazeState) : GazeState :=
  match p with
  | none => { st with raw := none }
  | some p =>
    let smoothed : Option GazePoint :=
      match st.smoothed with
      | none => some p
      | some prev =>
        let dx := p.x - prev.x
        let dy := p.y - prev.y
        if hypotGe dx dy deadzone then
          some ⟨prev.x + alpha * dx, prev.y + alpha * dy⟩
        else
          some prev
    { st with raw := some p, smoothed := smoothed, lastTs := now, lost := false }

/-- A concrete gaze state whose smoothed point is (100, 100), used to
check the spec's worked smoothing examples. -/
def gazeStEx : GazeState :=
  { raw := none, smoothed := some ⟨100, 100⟩, lastTs := 0, lost := true }

/-! ## Game canvas (`Game.tsx`) -/

/-- Logical canvas width. -/
def W : ℚ := 800

/-- Logical canvas height. -/
def H : ℚ := 500

/-- A metric event emitted by the game (`Trial` in Game.tsx). -/
structure Trial where
  game : String
  metric_name : String
  value : ℚ
  unit : String
deriving DecidableEq, Repr

/-- Paddle state; `w`, `h`, `y`, `speed` are set once from the canvas
dimensions and never mutated, only `x` changes during play. -/
structure Paddle where
  x : ℚ
  y : ℚ
  w : ℚ
  h : ℚ
  speed : ℚ
deriving DecidableEq, Repr

/-- Ball state. -/
structure Ball where
  x : ℚ
  y : ℚ
  r : ℚ
  vx : ℚ
  vy : ℚ
deriving DecidableEq, Repr

/-- Arrow-key hold state. -/
structure Keys where
  left : Bool
  right : Bool
deriving DecidableEq, Repr

/-- All mutable refs of the Game component. -/
structure GameState where
  paddle : Paddle
  ball : Ball
  keys : Keys
  roundStartTs : Option ℚ
  firstContactTs : Option ℚ
  driftAcc : ℚ
  lastPaddleX : ℚ
  running : Bool
  calibrating : Bool
  calibIndex : ℕ
  calibSamples : List ℚ
  calib : Option (ℚ × ℚ)
deriving DecidableEq, Repr

/-- Initial paddle (Game.tsx lines 40–46): x = W/2, y = H − 22,
w = round(0.30·W) = 240, h = max(12, round(0.035·H)) = 18,
speed = max(6, round(0.012·W)) = 10. -/
def paddleInit : Paddle :=
  { x := W / 2, y := H - 22, w := (jsRound (W * 0.30) : ℤ),
    h := max 12 (jsRound (H * 0.035) : ℤ), speed := max 6 (jsRound (W * 0.012) : ℤ) }

/-- Initial ball (Game.tsx lines 48–54). -/
def ballInit : Ball :=
  { x := W / 2, y := (jsRound (H * 0.30) : ℤ), r := max 6 (jsRound (H * 0.025) : ℤ),
    vx := W * 0.007, vy := H * 0.012 }

/-- The component's state on first mount, before the render effect runs. -/
def initState : GameState :=
  { paddle := paddleInit, ball := ballInit, keys := { left := false, right := false },
    roundStartTs := none, firstContactTs := none, driftAcc := 0,
    lastPaddleX := paddleInit.x, running := false, calibrating := false,
    calibIndex := 0, calibSamples := [], calib := none }

/-- `resetRound` (Game.tsx lines 71–81).  `r1 r2 r3` stand for the three
`Math.random()` draws (each in [0,1) at runtime) and `now` for
`performance.now()`. -/
def resetRound (r1 r2 r3 now : ℚ) (s : GameState) : GameState :=
  let b := { s.ball with
             x := W / 2, y := 120,
             vx := (if r1 < 1 / 2 then -1 else 1) * (2.8 + r2 * 1.2),
             vy := 3.6 + r3 * 1.4 }
  { s with
    ball := b,
    roundStartTs := some now,
    firstContactTs := none,
    driftAcc := 0,
    lastPaddleX := s.paddle.x,
    running := true }

/-- `startCalibration` (Game.tsx lines 113–121), with the canvas mounted. -/
def startCalibration (s : GameState) : GameState :=
  { s with calibrating := true, calibIndex := 0, calibSamples := [], running := false }

/-- `e.key.toLowerCase()` for the key strings in play (ASCII). -/
def strToLower (s : String) : String := ⟨s.data.map Char.toLower⟩

/-- The `keydown` listener (Game.tsx lines 85–90).  Note that the Space
branch is not guarded by the calibration flag. -/
def handleKeyDown (key : String) (r1 r2 r3 now : ℚ) (s : GameState) : GameState :=
  let s1 := if key = "ArrowLeft" then { s with keys := { s.keys with left := true } } else s
  let s2 := if key = "ArrowRight" then { s1 with keys := { s1.keys with right := true } } else s1
  let s3 := if key = " " then resetRound r1 r2 r3 now s2 else s2
  if strToLower key = "c" then startCalibration s3 else s3

/-- The `keyup` listener (Game.tsx lines 91–94). -/
def handleKeyUp (key : String) (s : GameState) : GameState :=
  let s1 := if key = "ArrowLeft" then { s with keys := { s.keys with left := false } } else s
  if key = "ArrowRight" then { s1 with keys := { s1.keys with right := false } } else s1

/-- The render effect body (Game.tsx line 281) calls `resetRound` once
before starting the frame loop; it runs on first mount (and again on any
change of its dependencies `sessionId`, `useGaze`, `ready`). -/
def renderEffectInit (r1 r2 r3 now : ℚ) (s : GameState) : GameState :=
  resetRound r1 r2 r3 now s

/-- `mapGazeX` (Game.tsx lines 105–110): canvas-local x from viewport x,
then the linear calibration if one exists. -/
def mapGazeX (calib : Option (ℚ × ℚ)) (gxViewport rectLeft : ℚ) : ℚ :=
  let rawCanvasX := gxViewport - rectLeft
  match calib with
  | none => rawCanvasX
  | some ab => ab.1 * rawCanvasX + ab.2

/-- The clamp `Math.max(w/2, Math.min(W - w/2, x))` used by both control
branches. -/
def clampPaddleX (pw x : ℚ) : ℚ := max (pw / 2) (min (W - pw / 2) x)

/-- Per-frame inputs read by the tick from outside the game state:
the gaze-enable flag, the hook's smoothed sample, the canvas bounding
rectangle's left offset, the lost flag, and `performance.now()`. -/
structure FrameInput where
  useGaze : Bool
  smooth : Option GazePoint
  rectLeft : ℚ
  lost : Bool
  now : ℚ
deriving DecidableEq, Repr

/-- Paddle control (Game.tsx lines 194–212): the new paddle x for this
frame.  Gaze branch when gaze is enabled and a smoothed sample exists
(no movement while the signal is lost); otherwise the keyboard branch
with its final clamp. -/
def paddleUpdate (inp : FrameInput) (s : GameState) : ℚ :=
  match inp.useGaze, inp.smooth with
  | true, some g =>
    if inp.lost then s.paddle.x
    else
      let mappedX := mapGazeX s.calib g.x inp.rectLeft
      let maxDelta := W * 0.1
      let targetXRaw := clampPaddleX s.paddle.w mappedX
      let delta := targetXRaw - s.paddle.x
      let clampedTargetX :=
        if maxDelta < |delta| then s.paddle.x + jsSign delta * maxDelta else targetXRaw
      s.paddle.x + (clampedTargetX - s.paddle.x) * 0.42
  | _, _ =>
    let x1 := if s.keys.left then s.paddle.x - s.paddle.speed else s.paddle.x
    let x2 := if s.keys.right then x1 + s.paddle.speed else x1
    clampPaddleX s.paddle.w x2

/-- Ball physics (Game.tsx lines 219–223): advance by velocity, then
reflect vx at the side walls and vy at the top wall. -/
def ballStep (b : Ball) : Ball :=
  let x := b.x + b.vx
  let y := b.y + b.vy
  let vx := if x - b.r ≤ 0 ∨ W ≤ x + b.r then -b.vx else b.vx
  let vy := if y - b.r ≤ 0 then -b.vy else b.vy
  { b with x := x, y := y, vx := vx, vy := vy }

/-- The hit test of Game.tsx lines 225–232, evaluated on this frame's
updated paddle x and updated ball. -/
def hitCond (inp : FrameInput) (s : GameState) : Bool :=
  let px := paddleUpdate inp s
  let b1 := ballStep s.ball
  decide (s.paddle.y - s.paddle.h / 2 ≤ b1.y + b1.r) &&
  decide (px - s.paddle.w / 2 ≤ b1.x) &&
  decide (b1.x ≤ px + s.paddle.w / 2) &&
  decide (0 < b1.vy)

/-- The first-contact guard of Game.tsx line 235:
`!firstContactTs.current && roundStartTs.current` under JS truthiness. -/
def firstHitCond (inp : FrameInput) (s : GameState) : Bool :=
  hitCond inp s && !truthyNum s.firstContactTs && truthyNum s.roundStartTs

/-- The round-end test of Game.tsx line 247: the updated ball's top edge
is below the bottom of the canvas while the round is running. -/
def roundEndCond (s : GameState) : Bool :=
  decide (H < (ballStep s.ball).y - (ballStep s.ball).r) && s.running

/-- One frame of the loop (Game.tsx lines 167–279): when calibrating, the
tick only draws the overlay and changes no simulation state; otherwise it
updates the paddle, accumulates drift, advances the ball, detects the
paddle hit (emitting latency and accuracy trials on the first contact of
the round and applying the bounce), and detects the round end (emitting
the drift trial and stopping the round).  Returns the new state and the
trials emitted this frame, in emission order. -/
def tick (inp : FrameInput) (s : GameState) : GameState × List Trial :=
  if s.calibrating then (s, [])
  else
    let px := paddleUpdate inp s
    let drift := s.driftAcc + |px - s.lastPaddleX|
    let b1 := ballStep s.ball
    let latAcc : List Trial :=
      if firstHitCond inp s then
        [{ game := "paddle", metric_name := "latency_ms",
           value := inp.now - s.roundStartTs.getD 0, unit := "ms" },
         { game := "paddle", metric_name := "accuracy_px",
           value := |b1.x - px|, unit := "px" }]
      else []
    let fct := if firstHitCond inp s then some inp.now else s.firstContactTs
    let b2 :=
      if hitCond inp s then
        { b1 with vy := -b1.vy, vx := b1.vx + (b1.x - px) / (s.paddle.w / 2) * 1.15 }
      else b1
    let driftTrials : List Trial :=
      if roundEndCond s then
        [{ game := "paddle", metric_name := "drift_px", value := drift, unit := "px" }]
      else []
    let running2 := if roundEndCond s then false else s.running
    let s2 := { s with
                paddle := { s.paddle with x := px }, ball := b2,
                driftAcc := drift, lastPaddleX := px,
                firstContactTs := fct, running := running2 }
    (s2, latAcc ++ driftTrials)

/-- Run a list of frames in order, collecting all emitted trials. -/
def runFrames (inps : List FrameInput) (s : GameState) : GameState × List Trial :=
  match inps with
  | [] => (s, [])
  | i :: rest =>
    let r1 := tick i s
    let r2 := runFrames rest r1.1
    (r2.1, r1.2 ++ r2.2)

/-- The successive paddle x positions along a frame trace. -/
def paddleTraj (inps : List FrameInput) (s : GameState) : List ℚ :=
  match inps with
  | [] => []
  | i :: rest =>
    let s1 := (tick i s).1
    s1.paddle.x :: paddleTraj rest s1

/-- Sum of absolute successive differences, starting from `x0`. -/
def absDeltaSum (x0 : ℚ) : List ℚ → ℚ
  | [] => 0
  | x1 :: rest => |x1 - x0| + absDeltaSum x1 rest

/-! ### Calibration sampling and fit (`scheduleCalibSample`) -/

/-- The three calibration target fractions of W (Game.tsx line 67). -/
def calibTargets : List ℚ := [0.15, 0.5, 0.85]

/-- The per-target sample average (Game.tsx lines 136–137): the mean of
the collected samples, or the target's own canvas x if no valid sample
was collected during the 12 sampling instants. -/
def calibSampleAvg (samples : List ℚ) (idx : ℕ) : ℚ :=
  if 0 < samples.length then samples.foldl (· + ·) 0 / samples.length
  else calibTargets.getD idx 0 * W

/-- The linear least-squares fit of Game.tsx lines 144–155, written with
the source's left folds.  The indexed reduce
`screenXs.reduce((a, xi, i) => a + xi*canvasXs[i], 0)` is modelled by
folding over the zip; in the program both lists always have length 3. -/
def fitLinear (screenXs canvasXs : List ℚ) : ℚ × ℚ :=
  let n : ℚ := screenXs.length
  let sx := screenXs.foldl (· + ·) 0
  let sy := canvasXs.foldl (· + ·) 0
  let sxx := screenXs.foldl (fun a b => a + b * b) 0
  let sxy := (screenXs.zip canvasXs).foldl (fun a p => a + p.1 * p.2) 0
  let denom0 := n * sxx - sx * sx
  let denom := if denom0 = 0 then 1 else denom0
  let a := (n * sxy - sx * sy) / denom
  let b := (sy - a * sx) / n
  (a, b)

/-- The same fit written from the specification's words: n = 3 points,
Sx = Σ sample, Sy = Σ target, Sxx = Σ sample², Sxy = Σ sample·target,
denom = n·Sxx − Sx² with 1 substituted when zero, a = (n·Sxy − Sx·Sy)/denom,
b = (Sy − a·Sx)/n. -/
def olsFitSpec (samples targets : List ℚ) : ℚ × ℚ :=
  let n : ℚ := samples.length
  let sx := samples.sum
  let sy := targets.sum
  let sxx := (samples.map (fun x => x * x)).sum
  let sxy := ((samples.zip targets).map (fun p => p.1 * p.2)).sum
  let denom := if n * sxx - sx * sx = 0 then 1 else n * sxx - sx * sx
  let a := (n * sxy - sx * sy) / denom
  let b := (sy - a * sx) / n
  (a, b)

/-! ## Session dashboard (`page.tsx`) -/

/-- One element of the JSON body posted to the trials endpoint. -/
structure TrialBody where
  latency : ℚ
  accuracy : ℚ
  drift : ℚ
deriving DecidableEq, Repr

/-- A POST to `/session/{sid}/trials` with its JSON body. -/
structure PostReq where
  sid : ℚ
  body : List TrialBody
deriving DecidableEq, Repr

/-- The metrics shape consumed by the dashboard.  Fields are optional
because the synthesized shape `{latency_ms: avg_latency, ...}` copies
possibly-undefined response fields verbatim. -/
structure MetricsR where
  latency_ms : Option ℚ
  drift_px : Option ℚ
  accuracy_px : Option ℚ
deriving DecidableEq, Repr

/-- The dashboard's `Result`: a severity (or absent) plus optional metrics. -/
structure ScoreResult where
  severity : Option ℚ
  metrics : Option MetricsR
deriving DecidableEq, Repr

/-- The fields of a score response's JSON payload that the dashboard
consumes; absent fields are `none`. -/
structure ScoreData where
  severity : Option ℚ
  score : Option ℚ
  metrics : Option MetricsR
  avg_latency : Option ℚ
  avg_drift : Option ℚ
  avg_accuracy : Option ℚ
deriving DecidableEq, Repr

/-- An HTTP response: its `ok` flag and parsed JSON payload. -/
structure HttpResp where
  ok : Bool
  data : ScoreData
deriving DecidableEq, Repr

/-- The dashboard page's state: session id (a nullable number), status
message, the per-round buffered latency/accuracy holders, and the last
result. -/
structure DashState where
  sessionId : Option ℚ
  message : String
  lastLatency : Option ℚ
  lastAccuracy : Option ℚ
  result : Option ScoreResult
deriving DecidableEq, Repr

/-- The success path of `startSession` (page.tsx lines 31–35): stores the
returned `session_id` unguarded, sets the message, clears the result. -/
def startSessionSuccess (sid : ℚ) (st : DashState) : DashState :=
  { st with sessionId := some sid,
            message := "Session " ++ toString sid ++ " started",
            result := none }

/-- `submitTrial` (page.tsx lines 41–62).  Returns the new dashboard
state and the network requests issued (empty or a single POST).  The
session guard uses JS truthiness (`!sessionId`), so id 0 counts as
absent.  A latency or accuracy trial is only buffered; a drift trial
assembles the one-element body with defaults 300/80 for missing buffers
(`??` is nullish coalescing, so a buffered 0 is kept), clears both
holders, and posts. -/
def submitTrial (st : DashState) (t : Trial) : DashState × List PostReq :=
  if !truthyNum st.sessionId then
    ({ st with message := "Start a session first" }, [])
  else if t.metric_name = "latency_ms" then
    ({ st with lastLatency := some t.value }, [])
  else if t.metric_name = "accuracy_px" then
    ({ st with lastAccuracy := some t.value }, [])
  else if t.metric_name = "drift_px" then
    let body := [{ latency := st.lastLatency.getD 300,
                   accuracy := st.lastAccuracy.getD 80,
                   drift := t.value : TrialBody }]
    ({ st with lastLatency := none, lastAccuracy := none },
     [{ sid := st.sessionId.getD 0, body := body }])
  else (st, [])

/-- Submit a sequence of trials in order, collecting all requests. -/
def submitMany (st : DashState) : List Trial → DashState × List PostReq
  | [] => (st, [])
  | t :: rest =>
    let r1 := submitTrial st t
    let r2 := submitMany r1.1 rest
    (r2.1, r1.2 ++ r2.2)

/-- Response parsing in `computeScore` (page.tsx lines 70–75):
severity = `severity ?? score ?? null`; metrics = `metrics` if present,
else synthesized from `avg_latency`/`avg_drift`/`avg_accuracy` when
`avg_latency` is defined, else absent. -/
def parseScore (d : ScoreData) : ScoreResult :=
  let severity := d.severity.orElse fun _ => d.score
  let metrics := d.metrics.orElse fun _ =>
    match d.avg_latency with
    | some l => some { latency_ms := some l, drift_px := d.avg_drift,
                       accuracy_px := d.avg_accuracy }
    | none => none
  { severity := severity, metrics := metrics }

/-- `computeScore` (page.tsx lines 64–85), with the two network outcomes
as inputs: `tryPost` is the POST attempt (`none` models a thrown fetch,
absorbed by `.catch(() => null)`), `getResp` the GET outcome (`none`
models a throw, caught by the outer try/catch).  Returns the new state
plus flags (postAttempted, getIssued).  The success message's number
rendering is abstracted by `msgOfResult`. -/
def msgOfResult (res : ScoreResult) : String :=
  match res.metrics with
  | some m => toString (jsRound (m.latency_ms.getD 0)) ++ "ms · " ++
              toString (jsRound (m.drift_px.getD 0)) ++ "px drift · " ++
              toString (jsRound (m.accuracy_px.getD 0)) ++ "px acc"
  | none =>
    match res.severity with
    | some sev => "Severity " ++ toString sev
    | none => "Severity —"

def computeScore (st : DashState) (tryPost : Option HttpResp)
    (getResp : Option HttpResp) : DashState × Bool × Bool :=
  if !truthyNum st.sessionId then
    ({ st with message := "Start a session first" }, false, false)
  else
    match tryPost with
    | some r =>
      if r.ok then
        let res := parseScore r.data
        ({ st with result := some res, message := msgOfResult res }, true, false)
      else
        match getResp with
        | some g =>
          let res := parseScore g.data
          ({ st with result := some res, message := msgOfResult res }, true, true)
        | none => ({ st with message := "Error computing score" }, true, true)
    | none =>
      match getResp with
      | some g =>
        let res := parseScore g.data
        ({ st with result := some res, message := msgOfResult res }, true, true)
      | none => ({ st with message := "Error computing score" }, true, true)

/-- The Compute Score button's `disabled={!sessionId}` (page.tsx line 113). -/
def computeScoreDisabled (st : DashState) : Bool :=
  !truthyNum st.sessionId

/-! ## Helper lemmas -/

lemma foldl_add_eq_sum (l : List ℚ) (init : ℚ) :
    l.foldl (· + ·) init = init + l.sum := by
  induction l generalizing init with
  | nil => simp
  | cons x xs ih => simp [ih, List.sum_cons]; ring

lemma foldl_add_map_eq_sum {α : Type} (f : α → ℚ) (l : List α) (init : ℚ) :
    l.foldl (fun a b => a + f b) init = init + (l.map f).sum := by
  induction l generalizing init with
  | nil => simp
  | cons x xs ih => simp [ih, List.sum_cons]; ring

lemma tick_of_calibrating (inp : FrameInput) (s : GameState) (h : s.calibrating = true) :
    tick inp s = (s, []) := by
  simp [tick, h]

lemma tick_calibrating (inp : FrameInput) (s : GameState) :
    (tick inp s).1.calibrating = s.calibrating := by
  by_cases h : s.calibrating <;> simp [tick, h]

lemma tick_roundStartTs (inp : FrameInput) (s : GameState) :
    (tick inp s).1.roundStartTs = s.roundStartTs := by
  by_cases h : s.calibrating <;> simp [tick, h]

lemma tick_paddle_x (inp : FrameInput) (s : GameState) (h : s.calibrating = false) :
    (tick inp s).1.paddle.x = paddleUpdate inp s := by
  simp [tick, h]

lemma tick_paddle_w (inp : FrameInput) (s : GameState) :
    (tick inp s).1.paddle.w = s.paddle.w := by
  by_cases h : s.calibrating <;> simp [tick, h]

lemma tick_lastPaddleX (inp : FrameInput) (s : GameState) (h : s.calibrating = false) :
    (tick inp s).1.lastPaddleX = paddleUpdate inp s := by
  simp [tick, h]

lemma tick_driftAcc (inp : FrameInput) (s : GameState) (h : s.calibrating = false) :
    (tick inp s).1.driftAcc = s.driftAcc + |paddleUpdate inp s - s.lastPaddleX| := by
  simp [tick, h]

lemma tick_firstContactTs (inp : FrameInput) (s : GameState) (h : s.calibrating = false) :
    (tick inp s).1.firstContactTs =
      if firstHitCond inp s then some inp.now else s.firstContactTs := by
  simp [tick, h]

lemma tick_running (inp : FrameInput) (s : GameState) (h : s.calibrating = false) :
    (tick inp s).1.running = if roundEndCond s then false else s.running := by
  simp [tick, h]

lemma runFrames_append (inps1 inps2 : List FrameInput) (s : GameState) :
    runFrames (inps1 ++ inps2) s =
      ((runFrames inps2 (runFrames inps1 s).1).1,
       (runFrames inps1 s).2 ++ (runFrames inps2 (runFrames inps1 s).1).2) := by
  induction inps1 generalizing s with
  | nil => simp [runFrames]
  | cons i rest ih => simp [runFrames, ih]

lemma runFrames_invariants (inps : List FrameInput) (s : GameState)
    (hcal : s.calibrating = false) (hlast : s.lastPaddleX = s.paddle.x) :
    (runFrames inps s).1.calibrating = false ∧
    (runFrames inps s).1.lastPaddleX = (runFrames inps s).1.paddle.x ∧
    (runFrames inps s).1.driftAcc = s.driftAcc + absDeltaSum s.paddle.x (paddleTraj inps s) := by
  induction inps generalizing s with
  | nil => simp [runFrames, paddleTraj, absDeltaSum, hcal, hlast]
  | cons i rest ih =>
    have hcal1 : (tick i s).1.calibrating = false := by rw [tick_calibrating]; exact hcal
    have hx : (tick i s).1.paddle.x = paddleUpdate i s := tick_paddle_x i s hcal
    have hlast1 : (tick i s).1.lastPaddleX = (tick i s).1.paddle.x := by
      rw [tick_lastPaddleX i s hcal, hx]
    obtain ⟨ihc, ihl, ihd⟩ := ih (tick i s).1 hcal1 hlast1
    refine ⟨?_, ?_, ?_⟩
    · simpa [runFrames] using ihc
    · simpa [runFrames] using ihl
    · have : (runFrames (i :: rest) s).1 = (runFrames rest (tick i s).1).1 := by
        simp [runFrames]
      rw [this, ihd, tick_driftAcc i s hcal, paddleTraj, absDeltaSum, hx, hlast]
      ring

lemma tick_trials (inp : FrameInput) (s : GameState) (h : s.calibrating = false) :
    (tick inp s).2 =
      (if firstHitCond inp s then
        [{ game := "paddle", metric_name := "latency_ms",
           value := inp.now - s.roundStartTs.getD 0, unit := "ms" },
         { game := "paddle", metric_name := "accuracy_px",
           value := |(ballStep s.ball).x - paddleUpdate inp s|, unit := "px" }]
       else []) ++
      (if roundEndCond s then
        [{ game := "paddle", metric_name := "drift_px",
           value := s.driftAcc + |paddleUpdate inp s - s.lastPaddleX|, unit := "px" }]
       else []) := by
  simp [tick, h]

lemma firstHitCond_of_contact (inp : FrameInput) (s : GameState) (tc : ℚ)
    (hfc : s.firstContactTs = some tc) (htc : tc ≠ 0) :
    firstHitCond inp s = false := by
  simp [firstHitCond, truthyNum, hfc, htc]

lemma filter_drift_only (b : Bool) (v : ℚ) (name : String) (hn : name ≠ "drift_px") :
    (if b then
      [{ game := "paddle", metric_name := "drift_px", value := v, unit := "px" : Trial }]
     else []).filter (fun t => t.metric_name = name) = [] := by
  cases b <;> simp [List.filter, hn.symm]

lemma runFrames_no_more_first_hit (inps : List FrameInput) (s : GameState) (tc : ℚ)
    (hfc : s.firstContactTs = some tc) (htc : tc ≠ 0) :
    (runFrames inps s).1.firstContactTs = some tc ∧
    (runFrames inps s).2.filter (fun t => t.metric_name = "latency_ms") = [] ∧
    (runFrames inps s).2.filter (fun t => t.metric_name = "accuracy_px") = [] := by
  induction inps generalizing s with
  | nil => simp [runFrames, hfc]
  | cons i rest ih =>
    by_cases hc : s.calibrating
    · have ht := tick_of_calibrating i s hc
      have := ih s hfc
      simp only [runFrames, ht]
      simpa using this
    · have hc' : s.calibrating = false := by simpa using hc
      have hfh := firstHitCond_of_contact i s tc hfc htc
      have hfc1 : (tick i s).1.firstContactTs = some tc := by
        rw [tick_firstContactTs i s hc', hfh]
        · simpa using hfc
      obtain ⟨ih1, ih2, ih3⟩ := ih (tick i s).1 hfc1
      have htr := tick_trials i s hc'
      refine ⟨?_, ?_, ?_⟩
      · simpa [runFrames] using ih1
      · have : (runFrames (i :: rest) s).2 = (tick i s).2 ++ (runFrames rest (tick i s).1).2 := by
          simp [runFrames]
        rw [this, List.filter_append, htr, hfh, ih2]
        simp [filter_drift_only]
      · have : (runFrames (i :: rest) s).2 = (tick i s).2 ++ (runFrames rest (tick i s).1).2 := by
          simp [runFrames]
        rw [this, List.filter_append, htr, hfh, ih3]
        simp [filter_drift_only]

/-! ## Claims -/

/-- C5: after the three calibration pairs are collected, the coefficients
are the ordinary-least-squares fit `a = (n·Sxy − Sx·Sy)/denom`,
`b = (Sy − a·Sx)/n` with `denom = n·Sxx − Sx²` replaced by 1 when zero;
for the pairs (0,120), (400,400), (800,680) the fit yields a = 0.7 and
b = 120. -/
theorem calibration_fit_ols :
    (∀ samples targets : List ℚ, fitLinear samples targets = olsFitSpec samples targets) ∧
    fitLinear [0, 400, 800] [120, 400, 680] = (0.7, 120) := by
  constructor
  · intro samples targets
    simp only [fitLinear, olsFitSpec, foldl_add_eq_sum,
      foldl_add_map_eq_sum (fun b : ℚ => b * b),
      foldl_add_map_eq_sum (fun p : ℚ × ℚ => p.1 * p.2)]
    norm_num
  · norm_num [fitLinear]

/-- C9: when no valid gaze sample is available during a calibration pass,
each target's recorded sample falls back to the target's own canvas x
(120, 400, 680); the least-squares fit over these identical pairs is the
identity transform a = 1, b = 0, and the resulting gaze mapping equals
the uncalibrated pass-through mapping. -/
theorem no_gaze_calibration_identity :
    (calibSampleAvg [] 0 = 120 ∧ calibSampleAvg [] 1 = 400 ∧ calibSampleAvg [] 2 = 680) ∧
    calibTargets.map (fun t => t * W) = [120, 400, 680] ∧
    fitLinear [120, 400, 680] [120, 400, 680] = (1, 0) ∧
    (∀ gx rectLeft : ℚ, mapGazeX (some (1, 0)) gx rectLeft = mapGazeX none gx rectLeft) := by
  refine ⟨by norm_num [calibSampleAvg, calibTargets, W],
          by norm_num [calibTargets, W],
          by norm_num [fitLinear], ?_⟩
  intro gx rectLeft
  simp [mapGazeX]

/-- C6: gaze smoothing — with no prior smoothed sample, the raw sample
seeds the smoothed one; otherwise the smoothed sample moves by
alpha·delta per axis when the delta's Euclidean magnitude is at least the
deadzone and is left unchanged below it; in particular, for alpha = 0.6,
deadzone = 12, previous (100,100): raw (100,105) leaves (100,100), and
raw (100,120) yields (100,112). -/
theorem gaze_smoothing (alpha deadzone : ℚ) (st : GazeState) (p prev : GazePoint)
    (now : ℚ) :
    (st.smoothed = none → (onGaze alpha deadzone (some p) now st).smoothed = some p) ∧
    (st.smoothed = some prev →
      ((0 ≤ deadzone →
          deadzone * deadzone ≤
            (p.x - prev.x) * (p.x - prev.x) + (p.y - prev.y) * (p.y - prev.y) →
          (onGaze alpha deadzone (some p) now st).smoothed =
            some ⟨prev.x + alpha * (p.x - prev.x), prev.y + alpha * (p.y - prev.y)⟩) ∧
       (0 < deadzone →
          (p.x - prev.x) * (p.x - prev.x) + (p.y - prev.y) * (p.y - prev.y) <
            deadzone * deadzone →
          (onGaze alpha deadzone (some p) now st).smoothed = some prev))) ∧
    (onGaze 0.6 12 (some ⟨100, 105⟩) now gazeStEx).smoothed = some ⟨100, 100⟩ ∧
    (onGaze 0.6 12 (some ⟨100, 120⟩) now gazeStEx).smoothed = some ⟨100, 112⟩ := by
  refine ⟨?_, ?_, ?_, ?_⟩
  · intro h
    simp [onGaze, h]
  · intro h
    constructor
    · intro _ hge
      have hg : hypotGe (p.x - prev.x) (p.y - prev.y) deadzone = true := by
        simp only [hypotGe, Bool.or_eq_true, decide_eq_true_eq]
        exact Or.inr hge
      simp [onGaze, h, hg]
    · intro hdz hlt
      have hg : hypotGe (p.x - prev.x) (p.y - prev.y) deadzone = false := by
        simp only [hypotGe, Bool.or_eq_false_iff, decide_eq_false_iff_not, not_le, not_lt]
        exact ⟨hdz, hlt⟩
      simp [onGaze, h, hg]
  · norm_num [onGaze, gazeStEx, hypotGe]
  · norm_num [onGaze, gazeStEx, hypotGe]

/-- Witness for C6 at the spec's worked example: alpha 0.6, deadzone 12,
previous smoothed point (100,100), raw sample (100,120). -/
theorem gaze_smoothing_witness :
    gazeStEx.smoothed = some ⟨100, 100⟩ ∧
    (onGaze 0.6 12 (some ⟨100, 120⟩) 7 gazeStEx).smoothed =
      some ⟨100 + 0.6 * (100 - 100), 100 + 0.6 * (120 - 100)⟩ := by
  have h := ((gaze_smoothing 0.6 12 gazeStEx ⟨100, 120⟩ ⟨100, 100⟩ 7).2.1 rfl).1
    (by norm_num) (by norm_num)
  exact ⟨rfl, h⟩

/-- C7: for an active session, latency and accuracy trials are buffered
with no network call; a drift trial issues exactly one POST whose body is
the one-element array with latency defaulting to 300 and accuracy to 80
when unbuffered, and both holders are cleared.  The two worked sequences
from the spec are included. -/
theorem trial_buffering (st : DashState) (n : ℚ)
    (hsid : st.sessionId = some n) (hn : n ≠ 0) :
    (∀ v : ℚ, submitTrial st ⟨"paddle", "latency_ms", v, "ms"⟩ =
      ({ st with lastLatency := some v }, [])) ∧
    (∀ v : ℚ, submitTrial st ⟨"paddle", "accuracy_px", v, "px"⟩ =
      ({ st with lastAccuracy := some v }, [])) ∧
    (∀ v : ℚ, submitTrial st ⟨"paddle", "drift_px", v, "px"⟩ =
      ({ st with lastLatency := none, lastAccuracy := none },
       [⟨n, [⟨st.lastLatency.getD 300, st.lastAccuracy.getD 80, v⟩]⟩])) ∧
    (submitMany { st with lastLatency := none, lastAccuracy := none }
        [⟨"paddle", "latency_ms", 250, "ms"⟩, ⟨"paddle", "accuracy_px", 40, "px"⟩,
         ⟨"paddle", "drift_px", 30, "px"⟩]).2 = [⟨n, [⟨250, 40, 30⟩]⟩] ∧
    (submitMany { st with lastLatency := none, lastAccuracy := none }
        [⟨"paddle", "drift_px", 30, "px"⟩]).2 = [⟨n, [⟨300, 80, 30⟩]⟩] := by
  have htr : truthyNum st.sessionId = true := by simp [truthyNum, hsid, hn]
  have htr2 : truthyNum (some n) = true := by simp [truthyNum, hn]
  refine ⟨?_, ?_, ?_, ?_, ?_⟩
  · intro v
    simp [submitTrial, htr]
  · intro v
    simp [submitTrial, htr]
  · intro v
    simp [submitTrial, htr, htr2, hsid]
  · simp [submitMany, submitTrial, htr, htr2, hsid]
  · simp [submitMany, submitTrial, htr, htr2, hsid]

/-- Witness for C7: a dashboard state with active session 1; the
latency-accuracy-drift sequence posts the single assembled body. -/
theorem trial_buffering_witness :
    (submitMany ⟨some 1, "", none, none, none⟩
        [⟨"paddle", "latency_ms", 250, "ms"⟩, ⟨"paddle", "accuracy_px", 40, "px"⟩,
         ⟨"paddle", "drift_px", 30, "px"⟩]).2 = [⟨1, [⟨250, 40, 30⟩]⟩] := by
  have h := (trial_buffering ⟨some 1, "", none, none, none⟩ 1 rfl
    (by norm_num)).2.2.2.1
  simpa using h

/-- C8: Compute Score with an active session first attempts the POST; a
GET to the same path is issued iff the POST attempt throws or returns a
non-success response, and the GET response is then the one parsed; if the
POST succeeds, no GET is issued and the POST response is used. -/
theorem compute_score_fallback (st : DashState) (n : ℚ) (tryPost : Option HttpResp)
    (g : HttpResp) (hsid : st.sessionId = some n) (hn : n ≠ 0) :
    (computeScore st tryPost (some g)).2.1 = true ∧
    ((computeScore st tryPost (some g)).2.2 = true ↔
      tryPost = none ∨ ∃ r, tryPost = some r ∧ r.ok = false) ∧
    (∀ r, tryPost = some r → r.ok = true →
      (computeScore st tryPost (some g)).2.2 = false ∧
      (computeScore st tryPost (some g)).1.result = some (parseScore r.data)) ∧
    ((computeScore st tryPost (some g)).2.2 = true →
      (computeScore st tryPost (some g)).1.result = some (parseScore g.data)) := by
  have htr : truthyNum st.sessionId = true := by simp [truthyNum, hsid, hn]
  match tryPost with
  | none => simp [computeScore, htr]
  | some r =>
    by_cases hok : r.ok
    · simp [computeScore, htr, hok]
    · have hok' : r.ok = false := by simpa using hok
      refine ⟨by simp [computeScore, htr, hok'], ?_, ?_, ?_⟩
      · simp only [computeScore, htr, hok', Bool.not_true, if_false, Bool.false_eq_true]
        constructor
        · intro _
          exact Or.inr ⟨r, rfl, hok'⟩
        · intro _
          simp
      · intro r2 hr2 hok2
        rw [Option.some_inj] at hr2
        rw [← hr2] at hok2
        exact absurd hok2 hok
      · intro _
        simp [computeScore, htr, hok', parseScore]

/-- Witness for C8: active session 2, POST returns non-success, GET
succeeds — the GET is issued and its payload is the one parsed. -/
theorem compute_score_fallback_witness :
    (computeScore ⟨some 2, "", none, none, none⟩
      (some ⟨false, ⟨none, none, none, none, none, none⟩⟩)
      (some ⟨true, ⟨some 42, none, none, none, none, none⟩⟩)).2.2 = true ∧
    (computeScore ⟨some 2, "", none, none, none⟩
      (some ⟨false, ⟨none, none, none, none, none, none⟩⟩)
      (some ⟨true, ⟨some 42, none, none, none, none, none⟩⟩)).1.result =
      some (parseScore ⟨some 42, none, none, none, none, none⟩) := by
  have h := compute_score_fallback ⟨some 2, "", none, none, none⟩ 2
    (some ⟨false, ⟨none, none, none, none, none, none⟩⟩)
    ⟨true, ⟨some 42, none, none, none, none, none⟩⟩ rfl (by norm_num)
  have hget := h.2.1.mpr (Or.inr ⟨_, rfl, rfl⟩)
  exact ⟨hget, h.2.2.2 hget⟩

/-- C10: a stored session id of 0 is treated as absent by every
session-guarded operation: Submit Trial and Compute Score set
"Start a session first" and send nothing, and the Compute Score button
stays disabled; `startSession` does store the 0 unguarded. -/
theorem session_id_zero_guard (st : DashState) (hsid : st.sessionId = some 0) :
    (∀ st0 : DashState, (startSessionSuccess 0 st0).sessionId = some 0) ∧
    (∀ t : Trial, submitTrial st t = ({ st with message := "Start a session first" }, [])) ∧
    (∀ tryPost getResp, computeScore st tryPost getResp =
      ({ st with message := "Start a session first" }, false, false)) ∧
    computeScoreDisabled st = true := by
  have htr : truthyNum st.sessionId = false := by simp [truthyNum, hsid]
  refine ⟨?_, ?_, ?_, ?_⟩
  · intro st0
    simp [startSessionSuccess]
  · intro t
    simp [submitTrial, htr]
  · intro tryPost getResp
    simp [computeScore, htr]
  · simp [computeScoreDisabled, htr]

/-- Witness for C10: the concrete dashboard state right after the backend
returned session_id = 0. -/
theorem session_id_zero_guard_witness :
    submitTrial (startSessionSuccess 0
        { sessionId := none, message := "", lastLatency := none,
          lastAccuracy := none, result := none })
      { game := "paddle", metric_name := "drift_px", value := 30, unit := "px" } =
      ({ startSessionSuccess 0
           { sessionId := none, message := "", lastLatency := none,
             lastAccuracy := none, result := none }
         with message := "Start a session first" }, []) := by
  exact (session_id_zero_guard _ rfl).2.1 _

/-- C4 counterexample: the keydown handler calls `resetRound` on Space
with no check of the calibration flag, so a Space keypress while the
canvas is in calibration mode does cause a round reset (ball respawned,
round-start timestamp recorded, drift zeroed, running set true),
contradicting "only on a Space keypress while the canvas is not in
calibration mode". -/
theorem space_resets_during_calibration :
    (startCalibration initState).calibrating = true ∧
    handleKeyDown " " 0 0 0 100 (startCalibration initState) =
      resetRound 0 0 0 100 (startCalibration initState) ∧
    (handleKeyDown " " 0 0 0 100 (startCalibration initState)).running = true ∧
    (handleKeyDown " " 0 0 0 100 (startCalibration initState)).roundStartTs = some 100 ∧
    (handleKeyDown " " 0 0 0 100 (startCalibration initState)).driftAcc = 0 ∧
    (handleKeyDown " " 0 0 0 100 (startCalibration initState)).firstContactTs = none := by
  have h1 : (" " = "ArrowLeft") = False := by simp
  have h2 : (" " = "ArrowRight") = False := by simp
  have h3 : (strToLower " " = "c") = False := by decide
  refine ⟨rfl, ?_, ?_, ?_, ?_, ?_⟩ <;>
    simp [handleKeyDown, h1, h2, h3, resetRound]

/-- C4 (amended): a round reset occurs on every Space keypress regardless
of calibration mode, and on each run of the render effect (its body calls
`resetRound` before starting the loop); no other keyboard event and no
frame tick causes a round reset (they leave the round-start timestamp,
the ball spawn state, and the drift accumulator untouched, except for the
tick's own simulation updates which never re-arm a round). -/
theorem round_reset_events :
    (∀ r1 r2 r3 now : ℚ, ∀ s : GameState,
      handleKeyDown " " r1 r2 r3 now s = resetRound r1 r2 r3 now s) ∧
    (∀ key : String, key ≠ " " → ∀ r1 r2 r3 now : ℚ, ∀ s : GameState,
      (handleKeyDown key r1 r2 r3 now s).roundStartTs = s.roundStartTs ∧
      (handleKeyDown key r1 r2 r3 now s).ball = s.ball ∧
      (handleKeyDown key r1 r2 r3 now s).driftAcc = s.driftAcc ∧
      (handleKeyDown key r1 r2 r3 now s).firstContactTs = s.firstContactTs) ∧
    (∀ key : String, ∀ s : GameState,
      (handleKeyUp key s).roundStartTs = s.roundStartTs ∧
      (handleKeyUp key s).ball = s.ball ∧
      (handleKeyUp key s).driftAcc = s.driftAcc) ∧
    (∀ r1 r2 r3 now : ℚ, ∀ s : GameState,
      renderEffectInit r1 r2 r3 now s = resetRound r1 r2 r3 now s) ∧
    (∀ inp : FrameInput, ∀ s : GameState,
      (tick inp s).1.roundStartTs = s.roundStartTs) := by
  have h1 : (" " = "ArrowLeft") = False := by simp
  have h2 : (" " = "ArrowRight") = False := by simp
  have h3 : (strToLower " " = "c") = False := by decide
  refine ⟨?_, ?_, ?_, ?_, ?_⟩
  · intro r1 r2 r3 now s
    simp [handleKeyDown, h1, h2, h3]
  · intro key hkey r1 r2 r3 now s
    refine ⟨?_, ?_, ?_, ?_⟩ <;>
      · simp only [handleKeyDown, if_neg hkey]
        split_ifs <;> simp [startCalibration]
  · intro key s
    refine ⟨?_, ?_, ?_⟩ <;>
      · simp only [handleKeyUp]
        split_ifs <;> simp
  · intro r1 r2 r3 now s
    rfl
  · intro inp s
    exact tick_roundStartTs inp s

/-- Witness for C4's amended statement: a non-Space key (ArrowLeft) does
not reset the round in a concrete running state. -/
theorem round_reset_events_witness :
    handleKeyDown " " 3 4 5 200 initState = resetRound 3 4 5 200 initState ∧
    (handleKeyDown "ArrowLeft" 3 4 5 200 (resetRound 3 4 5 200 initState)).roundStartTs =
      some 200 := by
  refine ⟨round_reset_events.1 3 4 5 200 initState, ?_⟩
  have h := (round_reset_events.2.1 "ArrowLeft" (by decide) 3 4 5 200
    (resetRound 3 4 5 200 initState)).1
  rw [h]
  rfl

lemma clampPaddleX_bounds (x : ℚ) :
    120 ≤ clampPaddleX 240 x ∧ clampPaddleX 240 x ≤ 680 := by
  unfold clampPaddleX W
  norm_num

lemma paddleUpdate_bounds (inp : FrameInput) (s : GameState) (hw : s.paddle.w = 240)
    (h1 : 120 ≤ s.paddle.x) (h2 : s.paddle.x ≤ 680) :
    120 ≤ paddleUpdate inp s ∧ paddleUpdate inp s ≤ 680 := by
  unfold paddleUpdate
  cases hug : inp.useGaze with
  | false =>
    simp only []
    rw [hw]
    exact clampPaddleX_bounds _
  | true =>
    cases hsm : inp.smooth with
    | none =>
      simp only []
      rw [hw]
      exact clampPaddleX_bounds _
    | some g =>
      simp only []
      by_cases hl : inp.lost
      · simp [hl]
        exact ⟨h1, h2⟩
      · simp only [hl, if_false, Bool.false_eq_true]
        set t := clampPaddleX s.paddle.w (mapGazeX s.calib g.x inp.rectLeft) with ht
        have htb : 120 ≤ t ∧ t ≤ 680 := by rw [ht, hw]; exact clampPaddleX_bounds _
        set c := if W * 0.1 < |t - s.paddle.x| then
          s.paddle.x + jsSign (t - s.paddle.x) * (W * 0.1) else t with hc
        have hcb : 120 ≤ c ∧ c ≤ 680 := by
          rw [hc]
          split_ifs with hbig
        -- the per-frame cap: move 80px toward the clamped target
          · rw [jsSign]
            have hW : W * 0.1 = 80 := by norm_num [W]
            rw [hW] at hbig ⊢
            split_ifs with hpos hneg
            · constructor
              · linarith
              · have : 80 < t - s.paddle.x := by
                  rwa [abs_of_pos hpos] at hbig
                linarith [htb.2]
            · constructor
              · have : 80 < -(t - s.paddle.x) := by
                  rwa [abs_of_neg hneg] at hbig
                linarith [htb.1]
              · linarith
            · exfalso
              have h0 : t - s.paddle.x = 0 := le_antisymm (not_lt.mp hpos) (not_lt.mp hneg)
              rw [h0] at hbig
              norm_num at hbig
          · exact htb
        constructor
        · have := hcb.1
          nlinarith
        · have := hcb.2
          nlinarith

/-- C3: the paddle x position always lies in
[paddle.width/2, W − paddle.width/2] = [120, 680]: it does initially
(x = W/2 = 400) and is preserved by every frame update in both control
modes, hence along every frame trace. -/
theorem paddle_clamp_invariant :
    (initState.paddle.x = W / 2 ∧ initState.paddle.w = 240 ∧
     120 ≤ initState.paddle.x ∧ initState.paddle.x ≤ 680) ∧
    (∀ inp : FrameInput, ∀ s : GameState, s.paddle.w = 240 →
      120 ≤ s.paddle.x → s.paddle.x ≤ 680 →
      120 ≤ (tick inp s).1.paddle.x ∧ (tick inp s).1.paddle.x ≤ 680) ∧
    (∀ inps : List FrameInput, ∀ s : GameState, s.paddle.w = 240 →
      120 ≤ s.paddle.x → s.paddle.x ≤ 680 →
      120 ≤ (runFrames inps s).1.paddle.x ∧ (runFrames inps s).1.paddle.x ≤ 680) := by
  have hstep : ∀ inp : FrameInput, ∀ s : GameState, s.paddle.w = 240 →
      120 ≤ s.paddle.x → s.paddle.x ≤ 680 →
      120 ≤ (tick inp s).1.paddle.x ∧ (tick inp s).1.paddle.x ≤ 680 := by
    intro inp s hw h1 h2
    by_cases hc : s.calibrating
    · rw [tick_of_calibrating inp s hc]
      exact ⟨h1, h2⟩
    · have hc' : s.calibrating = false := by simpa using hc
      rw [tick_paddle_x inp s hc']
      exact paddleUpdate_bounds inp s hw h1 h2
  refine ⟨by norm_num [initState, paddleInit, W, jsRound], hstep, ?_⟩
  intro inps
  induction inps with
  | nil =>
    intro s _ h1 h2
    exact ⟨h1, h2⟩
  | cons i rest ih =>
    intro s hw h1 h2
    have hs1 := hstep i s hw h1 h2
    have hw1 : (tick i s).1.paddle.w = 240 := by rw [tick_paddle_w]; exact hw
    have := ih (tick i s).1 hw1 hs1.1 hs1.2
    simpa [runFrames] using this

/-- Witness for C3: one concrete keyboard frame from the initial state
stays inside [120, 680]. -/
theorem paddle_clamp_invariant_witness :
    initState.paddle.w = 240 ∧ 120 ≤ initState.paddle.x ∧ initState.paddle.x ≤ 680 ∧
    (120 ≤ (tick ⟨false, none, 0, false, 1⟩ initState).1.paddle.x ∧
     (tick ⟨false, none, 0, false, 1⟩ initState).1.paddle.x ≤ 680) := by
  have hw : initState.paddle.w = 240 := by norm_num [initState, paddleInit, W, jsRound]
  have h1 : (120 : ℚ) ≤ initState.paddle.x := by norm_num [initState, paddleInit, W]
  have h2 : initState.paddle.x ≤ 680 := by norm_num [initState, paddleInit, W]
  exact ⟨hw, h1, h2, paddle_clamp_invariant.2.1 ⟨false, none, 0, false, 1⟩ initState hw h1 h2⟩

/-- C1: while the ball is moving downward, the hit test fires iff the
ball's bottom edge has reached the paddle's vertical band (its top edge)
and the ball's x lies within the paddle's horizontal span; the first such
detection of a round (no prior first contact, round-start timestamp
recorded at a positive time) emits exactly one latency_ms trial valued
now − round-start and exactly one accuracy_px trial valued
|ball.x − paddle.x|, records the contact time, and no further
latency/accuracy trials are emitted on later frames until the next round
reset. -/
theorem paddle_hit_trials (inp : FrameInput) (s : GameState) (t0 : ℚ)
    (hcal : s.calibrating = false) (hrs : s.roundStartTs = some t0)
    (ht0 : 0 < t0) (hnow : t0 < inp.now) :
    (0 < (ballStep s.ball).vy →
      (hitCond inp s = true ↔
        (s.paddle.y - s.paddle.h / 2 ≤ (ballStep s.ball).y + (ballStep s.ball).r ∧
         paddleUpdate inp s - s.paddle.w / 2 ≤ (ballStep s.ball).x ∧
         (ballStep s.ball).x ≤ paddleUpdate inp s + s.paddle.w / 2))) ∧
    (s.firstContactTs = none → hitCond inp s = true →
      ((tick inp s).2.filter (fun t => t.metric_name = "latency_ms") =
         [⟨"paddle", "latency_ms", inp.now - t0, "ms"⟩] ∧
       (tick inp s).2.filter (fun t => t.metric_name = "accuracy_px") =
         [⟨"paddle", "accuracy_px", |(ballStep s.ball).x - paddleUpdate inp s|, "px"⟩] ∧
       (tick inp s).1.firstContactTs = some inp.now)) ∧
    (hitCond inp s = false →
      ((tick inp s).2.filter (fun t => t.metric_name = "latency_ms") = [] ∧
       (tick inp s).2.filter (fun t => t.metric_name = "accuracy_px") = [])) ∧
    (s.firstContactTs = none → hitCond inp s = true → ∀ inps : List FrameInput,
      ((runFrames inps (tick inp s).1).2.filter
          (fun t => t.metric_name = "latency_ms") = [] ∧
       (runFrames inps (tick inp s).1).2.filter
          (fun t => t.metric_name = "accuracy_px") = [])) := by
  have htr : truthyNum s.roundStartTs = true := by
    simp [truthyNum, hrs, ht0.ne']
  refine ⟨?_, ?_, ?_, ?_⟩
  · intro hvy
    simp only [hitCond, Bool.and_eq_true, decide_eq_true_eq]
    constructor
    · rintro ⟨⟨⟨ha, hb⟩, hc⟩, _⟩
      exact ⟨ha, hb, hc⟩
    · rintro ⟨ha, hb, hc⟩
      exact ⟨⟨⟨ha, hb⟩, hc⟩, hvy⟩
  · intro hfc hhit
    have hfh : firstHitCond inp s = true := by
      simp [firstHitCond, hhit, hfc, truthyNum, hrs, ht0.ne']
    have hfct := tick_firstContactTs inp s hcal
    rw [hfh] at hfct
    refine ⟨?_, ?_, by simpa using hfct⟩
    · rw [tick_trials inp s hcal, hfh, List.filter_append,
        filter_drift_only _ _ _ (by simp)]
      simp [hrs]
    · rw [tick_trials inp s hcal, hfh, List.filter_append,
        filter_drift_only _ _ _ (by simp)]
      simp
  · intro hhit
    have hfh : firstHitCond inp s = false := by
      simp [firstHitCond, hhit]
    constructor <;>
      · rw [tick_trials inp s hcal, hfh, List.filter_append,
          filter_drift_only _ _ _ (by simp)]
        simp
  · intro hfc hhit inps
    have hfh : firstHitCond inp s = true := by
      simp [firstHitCond, hhit, hfc, truthyNum, hrs, ht0.ne']
    have hfct := tick_firstContactTs inp s hcal
    rw [hfh] at hfct
    have hnow0 : inp.now ≠ 0 := (ht0.trans hnow).ne'
    have h := runFrames_no_more_first_hit inps (tick inp s).1 inp.now
      (by simpa using hfct) hnow0
    exact ⟨h.2.1, h.2.2⟩

/-- Witness for C1: a concrete running round whose frame makes first
contact (round started at time 5, contact at time 10, ball centred on the
paddle). -/
theorem paddle_hit_trials_witness :
    hitCond ⟨false, none, 0, false, 10⟩
      { initState with ball := ⟨400, 450, 13, 0, 6⟩,
                       roundStartTs := some 5, running := true } = true ∧
    (tick ⟨false, none, 0, false, 10⟩
      { initState with ball := ⟨400, 450, 13, 0, 6⟩,
                       roundStartTs := some 5, running := true }).2.filter
        (fun t => t.metric_name = "latency_ms") =
      [⟨"paddle", "latency_ms", 10 - 5, "ms"⟩] ∧
    (tick ⟨false, none, 0, false, 10⟩
      { initState with ball := ⟨400, 450, 13, 0, 6⟩,
                       roundStartTs := some 5, running := true }).1.firstContactTs =
      some 10 := by
  have hhit : hitCond ⟨false, none, 0, false, 10⟩
      { initState with ball := ⟨400, 450, 13, 0, 6⟩,
                       roundStartTs := some 5, running := true } = true := by
    norm_num [hitCond, paddleUpdate, ballStep, clampPaddleX, initState,
      paddleInit, ballInit, jsRound, W, H]
  have h := (paddle_hit_trials ⟨false, none, 0, false, 10⟩
    { initState with ball := ⟨400, 450, 13, 0, 6⟩,
                     roundStartTs := some 5, running := true } 5 rfl rfl
    (by norm_num) (by norm_num)).2.1 rfl hhit
  exact ⟨hhit, h.1, h.2.2⟩

/-- C2: when the updated ball's top edge passes below H = 500 while the
round is running, the frame emits exactly one drift_px trial whose value
is the accumulated sum of the absolute per-frame paddle displacements
since the round reset (including this frame's), and sets running to
false; any frame started with running false emits no drift trial and
leaves running false. -/
theorem round_end_drift (s0 : GameState) (r1 r2 r3 tR : ℚ) (inps : List FrameInput)
    (i : FrameInput) (hcal : s0.calibrating = false) :
    (roundEndCond (runFrames inps (resetRound r1 r2 r3 tR s0)).1 = true →
      (tick i (runFrames inps (resetRound r1 r2 r3 tR s0)).1).2.filter
          (fun t => t.metric_name = "drift_px") =
        [⟨"paddle", "drift_px",
          absDeltaSum s0.paddle.x (paddleTraj (inps ++ [i]) (resetRound r1 r2 r3 tR s0)),
          "px"⟩] ∧
      (tick i (runFrames inps (resetRound r1 r2 r3 tR s0)).1).1.running = false) ∧
    (∀ j : FrameInput, ∀ s2 : GameState, s2.running = false →
      (tick j s2).2.filter (fun t => t.metric_name = "drift_px") = [] ∧
      (tick j s2).1.running = false) := by
  constructor
  · intro hre
    set sR := resetRound r1 r2 r3 tR s0 with hsR
    have hcalR : sR.calibrating = false := by
      simp [hsR, resetRound, hcal]
    have hlastR : sR.lastPaddleX = sR.paddle.x := by
      simp [hsR, resetRound]
    have hdR : sR.driftAcc = 0 := by
      simp [hsR, resetRound]
    have hxR : sR.paddle.x = s0.paddle.x := by
      simp [hsR, resetRound]
    obtain ⟨hc1, hl1, _⟩ := runFrames_invariants inps sR hcalR hlastR
    set s1 := (runFrames inps sR).1 with hs1
    -- the emitted value is the post-frame drift accumulator
    have hval : s1.driftAcc + |paddleUpdate i s1 - s1.lastPaddleX| =
        absDeltaSum s0.paddle.x (paddleTraj (inps ++ [i]) sR) := by
      obtain ⟨_, _, hd2⟩ := runFrames_invariants (inps ++ [i]) sR hcalR hlastR
      have happ : (runFrames (inps ++ [i]) sR).1 = (tick i s1).1 := by
        rw [runFrames_append]
        simp [runFrames]
      rw [happ, tick_driftAcc i s1 hc1] at hd2
      rw [hd2, hdR, hxR]
      ring
    constructor
    · rw [tick_trials i s1 hc1, hre, List.filter_append]
      have hlat : ∀ b : Bool, ∀ u v : ℚ,
          (if b then
            [⟨"paddle", "latency_ms", u, "ms"⟩,
             ⟨"paddle", "accuracy_px", v, "px"⟩]
           else ([] : List Trial)).filter (fun t => t.metric_name = "drift_px") = [] := by
        intro b u v
        cases b <;> simp [List.filter]
      rw [hlat]
      simp [hval]
    · rw [tick_running i s1 hc1, hre]
      simp
  · intro j s2 h2
    by_cases hc : s2.calibrating
    · rw [tick_of_calibrating j s2 hc]
      simpa using h2
    · have hc' : s2.calibrating = false := by simpa using hc
      have hre : roundEndCond s2 = false := by
        simp [roundEndCond, h2]
      constructor
      · rw [tick_trials j s2 hc', hre, List.filter_append]
        have hlat : ∀ b : Bool, ∀ u v : ℚ,
            (if b then
              [⟨"paddle", "latency_ms", u, "ms"⟩,
               ⟨"paddle", "accuracy_px", v, "px"⟩]
             else ([] : List Trial)).filter (fun t => t.metric_name = "drift_px") = [] := by
          intro b u v
          cases b <;> simp [List.filter]
        rw [hlat]
        simp
      · rw [tick_running j s2 hc', hre]
        exact h2

/-- Witness for C2: a reset with a huge vertical velocity draw sends the
ball past the bottom in one frame while the right arrow is held, so that
frame emits the drift trial valued 10 (one 10px paddle move) and stops
the round. -/
theorem round_end_drift_witness :
    roundEndCond (runFrames []
      (resetRound 0 0 1000 1 { initState with keys := ⟨false, true⟩ })).1 = true ∧
    (tick ⟨false, none, 0, false, 2⟩ (runFrames []
        (resetRound 0 0 1000 1 { initState with keys := ⟨false, true⟩ })).1).2.filter
      (fun t => t.metric_name = "drift_px") = [⟨"paddle", "drift_px", 10, "px"⟩] ∧
    (tick ⟨false, none, 0, false, 2⟩ (runFrames []
        (resetRound 0 0 1000 1 { initState with keys := ⟨false, true⟩ })).1).1.running =
      false := by
  have h := round_end_drift { initState with keys := ⟨false, true⟩ } 0 0 1000 1 []
    ⟨false, none, 0, false, 2⟩ rfl
  have hre : roundEndCond (runFrames []
      (resetRound 0 0 1000 1 { initState with keys := ⟨false, true⟩ })).1 = true := by
    norm_num [roundEndCond, runFrames, resetRound, ballStep, initState, ballInit,
      paddleInit, H, W, jsRound]
  obtain ⟨h1, h2⟩ := h.1 hre
  have hx : absDeltaSum ({ initState with keys := (⟨false, true⟩ : Keys) }).paddle.x
      (paddleTraj ([] ++ [⟨false, none, 0, false, 2⟩])
        (resetRound 0 0 1000 1 { initState with keys := ⟨false, true⟩ })) = 10 := by
    norm_num [absDeltaSum, paddleTraj, tick, paddleUpdate, clampPaddleX, resetRound,
      initState, paddleInit, ballInit, jsRound, W, H]
  rw [hx] at h1
  exact ⟨hre, h1, h2⟩

end NeuroBalance
